import Mathlib

/-!
Verification of the T-Display-S3-Long firmware UI core (uptime monitor,
spotify player, dual-mode variant) against its natural-language
specification.

The C++ sources are shallowly embedded:
* the 180×640 RGB565 framebuffer `fb : uint16_t*` becomes `FB := Int → Nat`,
  a total map from flat pixel index `y * 180 + x` to the stored color value;
* every raster primitive (`fbSetPixel`, `fbFillRect`, …) becomes a pure
  function `FB → FB`, with the C loops rendered as folds over explicit
  integer ranges in the same iteration order and with the same bound and
  guard conditions;
* the free-floating UI globals (`scrollOffset`, `selectedMonitor`,
  `isTouching`, …) are collected into explicit state records, and
  `handleTouch` / the relevant fragments of `loop` become state-transition
  functions taking the current touch sample and the `millis()` clock value
  as arguments;
* machine integers are modelled as `Int` (C `int`) and `Nat`
  (C `unsigned long`); C integer division (truncation toward zero) is
  `Int.tdiv`.
-/

/-- Framebuffer model: flat pixel index (`y * 180 + x`) to RGB565 value.
The physical buffer holds indices `0 ≤ n < 180 * 640 = 115200`. -/
def FB : Type := Int → Nat

/-- Number of cells of the 180×640 framebuffer. -/
def fbSize : Int := 115200

/-- The integer interval `[lo, hi)` as a list, in increasing order.
Used to embed C `for` loops over `int` counters. -/
def intRange (lo hi : Int) : List Int :=
  (List.range (hi - lo).toNat).map (fun (k : Nat) => lo + (k : Int))

theorem mem_intRange {lo hi a : Int} (h : a ∈ intRange lo hi) :
    lo ≤ a ∧ a < hi := by
  have h' :
      a ∈ (List.range (hi - lo).toNat).map (fun (k : Nat) => lo + (k : Int)) := h
  obtain ⟨k, hk, rfl⟩ := List.mem_map.mp h'
  rw [List.mem_range] at hk
  omega

/-- `op` writes the single color `c` to a set of in-buffer cells that
depends only on the operation's arguments, leaving all other cells
untouched.  Every raster primitive of the firmware satisfies this: the
write set is determined by the clip/guard logic, and each write stores the
call's color argument. -/
def WritesIn (op : FB → FB) (c : Nat) : Prop :=
  ∃ S : Int → Bool,
    (∀ n, S n = true → 0 ≤ n ∧ n < fbSize) ∧
    (∀ fb n, op fb n = if S n then c else fb n)

theorem writesIn_id (c : Nat) : WritesIn (fun fb => fb) c :=
  ⟨fun _ => false, by simp, by simp⟩

theorem writesIn_update (m : Int) (c : Nat) (h0 : 0 ≤ m) (h1 : m < fbSize) :
    WritesIn (fun fb => Function.update fb m c) c := by
  refine ⟨fun n => decide (n = m), ?_, ?_⟩
  · intro n hn
    simp only [decide_eq_true_eq] at hn
    omega
  · intro fb n
    by_cases h : n = m <;> simp [Function.update_apply, h]

theorem writesIn_comp {f g : FB → FB} {c : Nat}
    (hf : WritesIn f c) (hg : WritesIn g c) :
    WritesIn (fun fb => f (g fb)) c := by
  obtain ⟨Sf, hSf, hfe⟩ := hf
  obtain ⟨Sg, hSg, hge⟩ := hg
  refine ⟨fun n => Sf n || Sg n, ?_, ?_⟩
  · intro n hn
    rcases Bool.or_eq_true_iff.mp hn with h | h
    · exact hSf n h
    · exact hSg n h
  · intro fb n
    simp only [hfe, hge]
    by_cases h1 : Sf n = true <;> by_cases h2 : Sg n = true <;>
      simp [h1, h2]

theorem writesIn_compose {f g : FB → FB} {c : Nat}
    (hf : WritesIn f c) (hg : WritesIn g c) : WritesIn (f ∘ g) c := by
  have h := @writesIn_comp f g c hf hg
  exact h

theorem writesIn_foldl {α : Type} (step : α → FB → FB) (c : Nat)
    (L : List α) (h : ∀ a ∈ L, WritesIn (fun fb => step a fb) c) :
    WritesIn (fun fb => L.foldl (fun f a => step a f) fb) c := by
  induction L with
  | nil => exact writesIn_id c
  | cons a L ih =>
    simp only [List.foldl_cons]
    exact writesIn_comp
      (ih (fun b hb => h b (List.mem_cons_of_mem _ hb)))
      (h a (List.mem_cons_self a L))

theorem writesIn_out {op : FB → FB} {c : Nat} (h : WritesIn op c)
    (fb : FB) (n : Int) (hn : n < 0 ∨ fbSize ≤ n) : op fb n = fb n := by
  obtain ⟨S, hS, he⟩ := h
  rw [he]
  by_cases hs : S n = true
  · have := hS n hs
    omega
  · simp [hs]

theorem writesIn_idem {op : FB → FB} {c : Nat} (h : WritesIn op c)
    (fb : FB) : op (op fb) = op fb := by
  obtain ⟨S, hS, he⟩ := h
  funext n
  simp only [he]
  by_cases hs : S n = true <;> simp [hs]

theorem writesIn_pt {op : FB → FB} {c : Nat} (h : WritesIn op c)
    {fb fb' : FB} {n : Int} (hn : fb n = fb' n) : op fb n = op fb' n := by
  obtain ⟨S, hS, he⟩ := h
  rw [he, he]
  by_cases hs : S n = true <;> simp [hs, hn]

/-! ### Raster primitives (part_000 lines 164–252) -/

/-- `fbSetPixel` (part_000:164): guarded single-pixel store. -/
def fbSetPixel (x y : Int) (c : Nat) (fb : FB) : FB :=
  if 0 ≤ x ∧ x < 180 ∧ 0 ≤ y ∧ y < 640 then
    Function.update fb (y * 180 + x) c
  else fb

/-- `fbClear` (part_000:169): store `c` at every flat index `0 ≤ i < 115200`. -/
def fbClearLoop (m : Nat) (c : Nat) (fb : FB) : FB :=
  (List.range m).foldl (fun f (i : Nat) => Function.update f (i : Int) c) fb

def fbClear (c : Nat) (fb : FB) : FB := fbClearLoop (180 * 640) c fb

/-- `fbFillRect` (part_000:174): row loop `j ∈ [y, y+h) ∩ (-∞, 640)`
skipping `j < 0`, column loop `i ∈ [x, x+w) ∩ (-∞, 180)` skipping `i < 0`,
direct store at `j*180 + i`. -/
def fbFillRect (x y w h : Int) (c : Nat) (fb : FB) : FB :=
  (intRange y (min (y + h) 640)).foldl
    (fun f j =>
      if j < 0 then f
      else
        (intRange x (min (x + w) 180)).foldl
          (fun g i => if 0 ≤ i then Function.update g (j * 180 + i) c else g)
          f)
    fb

/-- The four quarter-disk corners of `fbFillRoundRect` (part_000:189–198):
double loop `i, j ∈ [0, r)` with the circle membership test
`i*i + j*j ≤ r*r`, each corner pixel drawn through `fbSetPixel` in the
source's call order. -/
def roundRectCorners (x y w h r : Int) (c : Nat) (fb : FB) : FB :=
  (intRange 0 r).foldl
    (fun f i =>
      (intRange 0 r).foldl
        (fun g j =>
          if i * i + j * j ≤ r * r then
            fbSetPixel (x + w - r + i) (y + h - r + j) c
              (fbSetPixel (x + r - i - 1) (y + h - r + j) c
                (fbSetPixel (x + w - r + i) (y + r - j - 1) c
                  (fbSetPixel (x + r - i - 1) (y + r - j - 1) c g)))
          else g)
        f)
    fb

/-- `fbFillRoundRect` (part_000:185): three `fbFillRect` calls (center,
left edge, right edge — applied in the source's statement order, innermost
first) followed by the four corner quarter-disks. -/
def fbFillRoundRect (x y w h r : Int) (c : Nat) (fb : FB) : FB :=
  roundRectCorners x y w h r c
    (fbFillRect (x + w - r) (y + r) r (h - 2 * r) c
      (fbFillRect x (y + r) r (h - 2 * r) c
        (fbFillRect (x + r) y (w - 2 * r) h c fb)))

/-- `fbFillCircle` (part_000:201). -/
def fbFillCircle (cx cy r : Int) (c : Nat) (fb : FB) : FB :=
  (intRange (-r) (r + 1)).foldl
    (fun f y =>
      (intRange (-r) (r + 1)).foldl
        (fun g x =>
          if x * x + y * y ≤ r * r then fbSetPixel (cx + x) (cy + y) c g
          else g)
        f)
    fb

/-- `fbDrawHLine` (part_000:210). -/
def fbDrawHLine (x y w : Int) (c : Nat) (fb : FB) : FB :=
  (intRange x (x + w)).foldl (fun f i => fbSetPixel i y c f) fb

theorem writesIn_fbSetPixel (x y : Int) (c : Nat) :
    WritesIn (fbSetPixel x y c) c := by
  unfold fbSetPixel
  by_cases h : 0 ≤ x ∧ x < 180 ∧ 0 ≤ y ∧ y < 640
  · simp only [if_pos h]
    refine writesIn_update _ _ ?_ ?_
    · omega
    · unfold fbSize
      omega
  · simp only [if_neg h]
    exact writesIn_id c

theorem writesIn_fbClearLoop (m : Nat) (c : Nat) (hm : (m : Int) ≤ fbSize) :
    WritesIn (fbClearLoop m c) c := by
  unfold fbClearLoop
  apply writesIn_foldl
  intro i hi
  rw [List.mem_range] at hi
  refine writesIn_update _ _ (by omega) (by omega)

theorem writesIn_fbClear (c : Nat) : WritesIn (fbClear c) c := by
  unfold fbClear
  refine writesIn_fbClearLoop _ c ?_
  unfold fbSize
  omega

theorem writesIn_fbFillRect (x y w h : Int) (c : Nat) :
    WritesIn (fbFillRect x y w h c) c := by
  unfold fbFillRect
  apply writesIn_foldl
  intro j hj
  have hj' := mem_intRange hj
  by_cases hjn : j < 0
  · simp only [if_pos hjn]
    exact writesIn_id c
  · simp only [if_neg hjn]
    apply writesIn_foldl
    intro i hi
    have hi' := mem_intRange hi
    by_cases hin : 0 ≤ i
    · simp only [if_pos hin]
      refine writesIn_update _ _ (by omega) ?_
      unfold fbSize
      omega
    · simp only [if_neg hin]
      exact writesIn_id c

theorem writesIn_roundRectCorners (x y w h r : Int) (c : Nat) :
    WritesIn (roundRectCorners x y w h r c) c := by
  unfold roundRectCorners
  apply writesIn_foldl
  intro i _
  apply writesIn_foldl
  intro j _
  by_cases hc : i * i + j * j ≤ r * r
  · simp only [if_pos hc]
    exact writesIn_comp (writesIn_fbSetPixel _ _ _)
      (writesIn_comp (writesIn_fbSetPixel _ _ _)
        (writesIn_comp (writesIn_fbSetPixel _ _ _)
          (writesIn_fbSetPixel _ _ _)))
  · simp only [if_neg hc]
    exact writesIn_id c

theorem writesIn_fbFillRoundRect (x y w h r : Int) (c : Nat) :
    WritesIn (fbFillRoundRect x y w h r c) c :=
  writesIn_compose (writesIn_roundRectCorners x y w h r c)
    (writesIn_compose (writesIn_fbFillRect (x + w - r) (y + r) r (h - 2 * r) c)
      (writesIn_compose (writesIn_fbFillRect x (y + r) r (h - 2 * r) c)
        (writesIn_fbFillRect (x + r) y (w - 2 * r) h c)))

theorem writesIn_fbFillCircle (cx cy r : Int) (c : Nat) :
    WritesIn (fbFillCircle cx cy r c) c := by
  unfold fbFillCircle
  apply writesIn_foldl
  intro y _
  apply writesIn_foldl
  intro x _
  by_cases hc : x * x + y * y ≤ r * r
  · simp only [if_pos hc]
    exact writesIn_fbSetPixel _ _ _
  · simp only [if_neg hc]
    exact writesIn_id c

theorem writesIn_fbDrawHLine (x y w : Int) (c : Nat) :
    WritesIn (fbDrawHLine x y w c) c := by
  unfold fbDrawHLine
  apply writesIn_foldl
  intro i _
  exact writesIn_fbSetPixel _ _ _

/-! ### Bitmap font (part_000 lines 97–159): 6x8 glyphs for chars 32..122,
8 bytes per glyph (columns 0..5 used, bytes 6..7 padding). -/

/-- `font6x8` (part_000:97). -/
def font6x8 : List Nat := [
  0x00, 0x00, 0x00, 0x00, 0x00, 0x00, 0x00, 0x00, 0x00, 0x00, 0x5F, 0x00,
  0x00, 0x00, 0x00, 0x00, 0x00, 0x07, 0x00, 0x07, 0x00, 0x00, 0x00, 0x00,
  0x14, 0x7F, 0x14, 0x7F, 0x14, 0x00, 0x00, 0x00, 0x24, 0x2A, 0x7F, 0x2A,
  0x12, 0x00, 0x00, 0x00, 0x23, 0x13, 0x08, 0x64, 0x62, 0x00, 0x00, 0x00,
  0x36, 0x49, 0x55, 0x22, 0x50, 0x00, 0x00, 0x00, 0x00, 0x05, 0x03, 0x00,
  0x00, 0x00, 0x00, 0x00, 0x00, 0x1C, 0x22, 0x41, 0x00, 0x00, 0x00, 0x00,
  0x00, 0x41, 0x22, 0x1C, 0x00, 0x00, 0x00, 0x00, 0x08, 0x2A, 0x1C, 0x2A,
  0x08, 0x00, 0x00, 0x00, 0x08, 0x08, 0x3E, 0x08, 0x08, 0x00, 0x00, 0x00,
  0x00, 0x50, 0x30, 0x00, 0x00, 0x00, 0x00, 0x00, 0x08, 0x08, 0x08, 0x08,
  0x08, 0x00, 0x00, 0x00, 0x00, 0x60, 0x60, 0x00, 0x00, 0x00, 0x00, 0x00,
  0x20, 0x10, 0x08, 0x04, 0x02, 0x00, 0x00, 0x00, 0x3E, 0x51, 0x49, 0x45,
  0x3E, 0x00, 0x00, 0x00, 0x00, 0x42, 0x7F, 0x40, 0x00, 0x00, 0x00, 0x00,
  0x42, 0x61, 0x51, 0x49, 0x46, 0x00, 0x00, 0x00, 0x21, 0x41, 0x45, 0x4B,
  0x31, 0x00, 0x00, 0x00, 0x18, 0x14, 0x12, 0x7F, 0x10, 0x00, 0x00, 0x00,
  0x27, 0x45, 0x45, 0x45, 0x39, 0x00, 0x00, 0x00, 0x3C, 0x4A, 0x49, 0x49,
  0x30, 0x00, 0x00, 0x00, 0x01, 0x71, 0x09, 0x05, 0x03, 0x00, 0x00, 0x00,
  0x36, 0x49, 0x49, 0x49, 0x36, 0x00, 0x00, 0x00, 0x06, 0x49, 0x49, 0x29,
  0x1E, 0x00, 0x00, 0x00, 0x00, 0x36, 0x36, 0x00, 0x00, 0x00, 0x00, 0x00,
  0x00, 0x56, 0x36, 0x00, 0x00, 0x00, 0x00, 0x00, 0x00, 0x08, 0x14, 0x22,
  0x41, 0x00, 0x00, 0x00, 0x14, 0x14, 0x14, 0x14, 0x14, 0x00, 0x00, 0x00,
  0x41, 0x22, 0x14, 0x08, 0x00, 0x00, 0x00, 0x00, 0x02, 0x01, 0x51, 0x09,
  0x06, 0x00, 0x00, 0x00, 0x32, 0x49, 0x79, 0x41, 0x3E, 0x00, 0x00, 0x00,
  0x7E, 0x11, 0x11, 0x11, 0x7E, 0x00, 0x00, 0x00, 0x7F, 0x49, 0x49, 0x49,
  0x36, 0x00, 0x00, 0x00, 0x3E, 0x41, 0x41, 0x41, 0x22, 0x00, 0x00, 0x00,
  0x7F, 0x41, 0x41, 0x22, 0x1C, 0x00, 0x00, 0x00, 0x7F, 0x49, 0x49, 0x49,
  0x41, 0x00, 0x00, 0x00, 0x7F, 0x09, 0x09, 0x01, 0x01, 0x00, 0x00, 0x00,
  0x3E, 0x41, 0x41, 0x51, 0x32, 0x00, 0x00, 0x00, 0x7F, 0x08, 0x08, 0x08,
  0x7F, 0x00, 0x00, 0x00, 0x00, 0x41, 0x7F, 0x41, 0x00, 0x00, 0x00, 0x00,
  0x20, 0x40, 0x41, 0x3F, 0x01, 0x00, 0x00, 0x00, 0x7F, 0x08, 0x14, 0x22,
  0x41, 0x00, 0x00, 0x00, 0x7F, 0x40, 0x40, 0x40, 0x40, 0x00, 0x00, 0x00,
  0x7F, 0x02, 0x04, 0x02, 0x7F, 0x00, 0x00, 0x00, 0x7F, 0x04, 0x08, 0x10,
  0x7F, 0x00, 0x00, 0x00, 0x3E, 0x41, 0x41, 0x41, 0x3E, 0x00, 0x00, 0x00,
  0x7F, 0x09, 0x09, 0x09, 0x06, 0x00, 0x00, 0x00, 0x3E, 0x41, 0x51, 0x21,
  0x5E, 0x00, 0x00, 0x00, 0x7F, 0x09, 0x19, 0x29, 0x46, 0x00, 0x00, 0x00,
  0x46, 0x49, 0x49, 0x49, 0x31, 0x00, 0x00, 0x00, 0x01, 0x01, 0x7F, 0x01,
  0x01, 0x00, 0x00, 0x00, 0x3F, 0x40, 0x40, 0x40, 0x3F, 0x00, 0x00, 0x00,
  0x1F, 0x20, 0x40, 0x20, 0x1F, 0x00, 0x00, 0x00, 0x7F, 0x20, 0x18, 0x20,
  0x7F, 0x00, 0x00, 0x00, 0x63, 0x14, 0x08, 0x14, 0x63, 0x00, 0x00, 0x00,
  0x03, 0x04, 0x78, 0x04, 0x03, 0x00, 0x00, 0x00, 0x61, 0x51, 0x49, 0x45,
  0x43, 0x00, 0x00, 0x00, 0x00, 0x00, 0x7F, 0x41, 0x41, 0x00, 0x00, 0x00,
  0x02, 0x04, 0x08, 0x10, 0x20, 0x00, 0x00, 0x00, 0x41, 0x41, 0x7F, 0x00,
  0x00, 0x00, 0x00, 0x00, 0x04, 0x02, 0x01, 0x02, 0x04, 0x00, 0x00, 0x00,
  0x40, 0x40, 0x40, 0x40, 0x40, 0x00, 0x00, 0x00, 0x00, 0x01, 0x02, 0x04,
  0x00, 0x00, 0x00, 0x00, 0x20, 0x54, 0x54, 0x54, 0x78, 0x00, 0x00, 0x00,
  0x7F, 0x48, 0x44, 0x44, 0x38, 0x00, 0x00, 0x00, 0x38, 0x44, 0x44, 0x44,
  0x20, 0x00, 0x00, 0x00, 0x38, 0x44, 0x44, 0x48, 0x7F, 0x00, 0x00, 0x00,
  0x38, 0x54, 0x54, 0x54, 0x18, 0x00, 0x00, 0x00, 0x08, 0x7E, 0x09, 0x01,
  0x02, 0x00, 0x00, 0x00, 0x08, 0x14, 0x54, 0x54, 0x3C, 0x00, 0x00, 0x00,
  0x7F, 0x08, 0x04, 0x04, 0x78, 0x00, 0x00, 0x00, 0x00, 0x44, 0x7D, 0x40,
  0x00, 0x00, 0x00, 0x00, 0x20, 0x40, 0x44, 0x3D, 0x00, 0x00, 0x00, 0x00,
  0x00, 0x7F, 0x10, 0x28, 0x44, 0x00, 0x00, 0x00, 0x00, 0x41, 0x7F, 0x40,
  0x00, 0x00, 0x00, 0x00, 0x7C, 0x04, 0x18, 0x04, 0x78, 0x00, 0x00, 0x00,
  0x7C, 0x08, 0x04, 0x04, 0x78, 0x00, 0x00, 0x00, 0x38, 0x44, 0x44, 0x44,
  0x38, 0x00, 0x00, 0x00, 0x7C, 0x14, 0x14, 0x14, 0x08, 0x00, 0x00, 0x00,
  0x08, 0x14, 0x14, 0x18, 0x7C, 0x00, 0x00, 0x00, 0x7C, 0x08, 0x04, 0x04,
  0x08, 0x00, 0x00, 0x00, 0x48, 0x54, 0x54, 0x54, 0x20, 0x00, 0x00, 0x00,
  0x04, 0x3F, 0x44, 0x40, 0x20, 0x00, 0x00, 0x00, 0x3C, 0x40, 0x40, 0x20,
  0x7C, 0x00, 0x00, 0x00, 0x1C, 0x20, 0x40, 0x20, 0x1C, 0x00, 0x00, 0x00,
  0x3C, 0x40, 0x30, 0x40, 0x3C, 0x00, 0x00, 0x00, 0x44, 0x28, 0x10, 0x28,
  0x44, 0x00, 0x00, 0x00, 0x0C, 0x50, 0x50, 0x50, 0x3C, 0x00, 0x00, 0x00,
  0x44, 0x64, 0x54, 0x4C, 0x44, 0x00, 0x00, 0x00
]

/-- `fbDrawChar` (part_000:215): characters outside `[32, 122]` are no-ops;
each set bit of the glyph column expands into a `sz × sz` block, every
pixel going through the clipping `fbSetPixel`. -/
def fbDrawChar (x y : Int) (ch : Nat) (c : Nat) (sz : Int) (fb : FB) : FB :=
  if ch < 32 ∨ 122 < ch then fb
  else
    (List.range 6).foldl
      (fun f i =>
        (List.range 8).foldl
          (fun g j =>
            if (font6x8.getD ((ch - 32) * 8 + i) 0).testBit j then
              (intRange 0 sz).foldl
                (fun f2 sy =>
                  (intRange 0 sz).foldl
                    (fun g2 sx =>
                      fbSetPixel (x + (i : Int) * sz + sx)
                        (y + (j : Int) * sz + sy) c g2)
                    f2)
                g
            else g)
          f)
      fb

/-- `fbDrawText` (part_000:233), on the list of character codes of the
string: draw each char, advancing the cursor by `6*sz` plus a 1px gap when
`sz > 1`. -/
def fbDrawTextL (x y : Int) (l : List Nat) (c : Nat) (sz : Int) (fb : FB) : FB :=
  match l with
  | [] => fb
  | ch :: rest =>
      fbDrawTextL (x + 6 * sz + (if 1 < sz then 1 else 0)) y rest c sz
        (fbDrawChar x y ch c sz fb)

/-- Character codes of a string (Arduino `String` / `const char*` bytes;
the UI only uses ASCII). -/
def strCodes (s : String) : List Nat := s.data.map Char.toNat

def fbDrawText (x y : Int) (s : String) (c : Nat) (sz : Int) (fb : FB) : FB :=
  fbDrawTextL x y (strCodes s) c sz fb

/-- `textWidth` (part_000:245): `strlen(s) * (6*sz + (sz > 1 ? 1 : 0))`. -/
def textWidth (s : String) (sz : Int) : Int :=
  (s.length : Int) * (6 * sz + (if 1 < sz then 1 else 0))

/-- `fbDrawTextCentered` (part_000:249); the C division `(180 - w) / 2`
truncates toward zero (`Int.tdiv`). -/
def fbDrawTextCentered (y : Int) (s : String) (c : Nat) (sz : Int) (fb : FB) : FB :=
  fbDrawText (Int.tdiv (180 - textWidth s sz) 2) y s c sz fb

theorem writesIn_fbDrawChar (x y : Int) (ch : Nat) (c : Nat) (sz : Int) :
    WritesIn (fbDrawChar x y ch c sz) c := by
  unfold fbDrawChar
  by_cases h : ch < 32 ∨ 122 < ch
  · simp only [if_pos h]
    exact writesIn_id c
  · simp only [if_neg h]
    apply writesIn_foldl
    intro i _
    apply writesIn_foldl
    intro j _
    by_cases hb : (font6x8.getD ((ch - 32) * 8 + i) 0).testBit j
    · simp only [if_pos hb]
      apply writesIn_foldl
      intro sy _
      apply writesIn_foldl
      intro sx _
      exact writesIn_fbSetPixel _ _ _
    · simp only [if_neg hb]
      exact writesIn_id c

theorem writesIn_fbDrawTextL (l : List Nat) :
    ∀ (x y : Int) (c : Nat) (sz : Int), WritesIn (fbDrawTextL x y l c sz) c := by
  induction l with
  | nil =>
    intro x y c sz
    exact writesIn_id c
  | cons ch rest ih =>
    intro x y c sz
    have h : WritesIn
        (fun fb =>
          fbDrawTextL (x + 6 * sz + (if 1 < sz then 1 else 0)) y rest c sz
            (fbDrawChar x y ch c sz fb)) c :=
      writesIn_comp (ih _ y c sz) (writesIn_fbDrawChar x y ch c sz)
    exact h

theorem writesIn_fbDrawText (x y : Int) (s : String) (c : Nat) (sz : Int) :
    WritesIn (fbDrawText x y s c sz) c := by
  unfold fbDrawText
  exact writesIn_fbDrawTextL (strCodes s) x y c sz

/-- An all-zero framebuffer, used as a concrete witness input. -/
def zfb : FB := fun _ => 0

/-- C7: for all integer arguments, including negative and out-of-range
coordinates and sizes, every framebuffer store performed by the raster
primitives stays inside the 180×640 buffer: any cell with flat index
outside `[0, 115200)` is left untouched by `fbSetPixel`, `fbFillRect`,
`fbFillRoundRect`, `fbFillCircle`, `fbDrawHLine` and `fbDrawChar`;
out-of-range input is silently clipped and is never an error. -/
theorem raster_stores_in_bounds (x y w h r cx cy hx hy hw tx ty : Int)
    (ch c : Nat) (sz : Int) (fb : FB) (n : Int)
    (hn : n < 0 ∨ fbSize ≤ n) :
    fbSetPixel x y c fb n = fb n ∧
    fbFillRect x y w h c fb n = fb n ∧
    fbFillRoundRect x y w h r c fb n = fb n ∧
    fbFillCircle cx cy r c fb n = fb n ∧
    fbDrawHLine hx hy hw c fb n = fb n ∧
    fbDrawChar tx ty ch c sz fb n = fb n :=
  ⟨writesIn_out (writesIn_fbSetPixel x y c) fb n hn,
   writesIn_out (writesIn_fbFillRect x y w h c) fb n hn,
   writesIn_out (writesIn_fbFillRoundRect x y w h r c) fb n hn,
   writesIn_out (writesIn_fbFillCircle cx cy r c) fb n hn,
   writesIn_out (writesIn_fbDrawHLine hx hy hw c) fb n hn,
   writesIn_out (writesIn_fbDrawChar tx ty ch c sz) fb n hn⟩

/-- Witness for C7 at concrete out-of-range arguments: a fill rectangle
hanging off every edge, a circle centered off-screen, a character at a
negative position, probed at the out-of-buffer index `-1`. -/
theorem raster_stores_in_bounds_witness :
    ((-1 : Int) < 0 ∨ fbSize ≤ (-1 : Int)) ∧
    (fbSetPixel (-3) 700 1 zfb (-1) = zfb (-1) ∧
     fbFillRect (-3) 700 300 10 1 zfb (-1) = zfb (-1) ∧
     fbFillRoundRect (-3) 700 300 10 3 1 zfb (-1) = zfb (-1) ∧
     fbFillCircle (-2) 645 3 1 zfb (-1) = zfb (-1) ∧
     fbDrawHLine (-10) 2 500 1 zfb (-1) = zfb (-1) ∧
     fbDrawChar (-7) (-7) 65 1 2 zfb (-1) = zfb (-1)) :=
  ⟨Or.inl (by decide),
   raster_stores_in_bounds (-3) 700 300 10 3 (-2) 645 (-10) 2 500 (-7) (-7)
     65 1 2 zfb (-1) (Or.inl (by decide))⟩

/-- C8: every raster drawing operation is idempotent — applying the same
operation twice with identical arguments leaves the framebuffer in exactly
the state produced by applying it once.  Each operation overwrites a fixed
set of cells with its color argument (painter's algorithm, no blending),
so a second identical application rewrites the same cells with the same
values. -/
theorem raster_primitives_idempotent (x y w h r cx cy hx hy hw tx ty : Int)
    (ch c : Nat) (sz : Int) (s : String) (fb : FB) :
    fbSetPixel x y c (fbSetPixel x y c fb) = fbSetPixel x y c fb ∧
    fbFillRect x y w h c (fbFillRect x y w h c fb) = fbFillRect x y w h c fb ∧
    fbFillRoundRect x y w h r c (fbFillRoundRect x y w h r c fb) =
      fbFillRoundRect x y w h r c fb ∧
    fbFillCircle cx cy r c (fbFillCircle cx cy r c fb) =
      fbFillCircle cx cy r c fb ∧
    fbDrawHLine hx hy hw c (fbDrawHLine hx hy hw c fb) =
      fbDrawHLine hx hy hw c fb ∧
    fbDrawChar tx ty ch c sz (fbDrawChar tx ty ch c sz fb) =
      fbDrawChar tx ty ch c sz fb ∧
    fbDrawText tx ty s c sz (fbDrawText tx ty s c sz fb) =
      fbDrawText tx ty s c sz fb ∧
    fbClear c (fbClear c fb) = fbClear c fb :=
  ⟨writesIn_idem (writesIn_fbSetPixel x y c) fb,
   writesIn_idem (writesIn_fbFillRect x y w h c) fb,
   writesIn_idem (writesIn_fbFillRoundRect x y w h r c) fb,
   writesIn_idem (writesIn_fbFillCircle cx cy r c) fb,
   writesIn_idem (writesIn_fbDrawHLine hx hy hw c) fb,
   writesIn_idem (writesIn_fbDrawChar tx ty ch c sz) fb,
   writesIn_idem (writesIn_fbDrawText tx ty s c sz) fb,
   writesIn_idem (writesIn_fbClear c) fb⟩

/-- `fbClear` sets every in-buffer cell to `c` and touches nothing else:
the loop `for i in [0, m)` of stores, evaluated at index `n`. -/
theorem fbClearLoop_apply (m : Nat) (c : Nat) (fb : FB) (n : Int) :
    fbClearLoop m c fb n = if 0 ≤ n ∧ n < (m : Int) then c else fb n := by
  induction m generalizing fb with
  | zero =>
    unfold fbClearLoop
    simp only [List.range_zero, List.foldl_nil]
    rw [if_neg (by omega)]
  | succ m ih =>
    unfold fbClearLoop at ih ⊢
    rw [List.range_succ, List.foldl_append]
    simp only [List.foldl_cons, List.foldl_nil]
    rw [Function.update_apply, ih]
    split_ifs <;> first | rfl | omega

theorem fbClear_apply (c : Nat) (fb : FB) (n : Int) :
    fbClear c fb n = if 0 ≤ n ∧ n < fbSize then c else fb n := by
  unfold fbClear
  rw [fbClearLoop_apply]
  have he : ((180 * 640 : Nat) : Int) = fbSize := by decide
  rw [he]

/-! ### Render operations

A draw routine (`drawListView`, `drawDetailView`) is embedded as the list
of primitive calls it issues, in source order; `applyOps` executes them
against the framebuffer.  The final `lcd_PushColors` flush to the panel is
an external sink and is not modelled. -/

inductive Op where
  | clear (c : Nat)
  | rect (x y w h : Int) (c : Nat)
  | roundRect (x y w h r : Int) (c : Nat)
  | circle (cx cy r : Int) (c : Nat)
  | hline (x y w : Int) (c : Nat)
  | text (x y : Int) (s : String) (c : Nat) (sz : Int)
  | textC (y : Int) (s : String) (c : Nat) (sz : Int)

def applyOp : Op → FB → FB
  | .clear c => fbClear c
  | .rect x y w h c => fbFillRect x y w h c
  | .roundRect x y w h r c => fbFillRoundRect x y w h r c
  | .circle cx cy r c => fbFillCircle cx cy r c
  | .hline x y w c => fbDrawHLine x y w c
  | .text x y s c sz => fbDrawText x y s c sz
  | .textC y s c sz => fbDrawTextCentered y s c sz

def applyOps (L : List Op) (fb : FB) : FB :=
  L.foldl (fun f o => applyOp o f) fb

theorem writesIn_fbDrawTextCentered (y : Int) (s : String) (c : Nat) (sz : Int) :
    WritesIn (fbDrawTextCentered y s c sz) c := by
  unfold fbDrawTextCentered
  exact writesIn_fbDrawText _ y s c sz

theorem writesIn_applyOp (o : Op) : ∃ c, WritesIn (applyOp o) c := by
  cases o with
  | clear c => exact ⟨c, writesIn_fbClear c⟩
  | rect x y w h c => exact ⟨c, writesIn_fbFillRect x y w h c⟩
  | roundRect x y w h r c => exact ⟨c, writesIn_fbFillRoundRect x y w h r c⟩
  | circle cx cy r c => exact ⟨c, writesIn_fbFillCircle cx cy r c⟩
  | hline x y w c => exact ⟨c, writesIn_fbDrawHLine x y w c⟩
  | text x y s c sz => exact ⟨c, writesIn_fbDrawText x y s c sz⟩
  | textC y s c sz => exact ⟨c, writesIn_fbDrawTextCentered y s c sz⟩

theorem applyOps_pt (L : List Op) :
    ∀ {fb fb' : FB} {n : Int}, fb n = fb' n →
      applyOps L fb n = applyOps L fb' n := by
  induction L with
  | nil =>
    intro fb fb' n h
    exact h
  | cons o L ih =>
    intro fb fb' n h
    unfold applyOps at ih ⊢
    simp only [List.foldl_cons]
    obtain ⟨c, hc⟩ := writesIn_applyOp o
    exact ih (writesIn_pt hc h)

theorem applyOps_out (L : List Op) :
    ∀ (fb : FB) (n : Int), (n < 0 ∨ fbSize ≤ n) → applyOps L fb n = fb n := by
  induction L with
  | nil =>
    intro fb n _
    rfl
  | cons o L ih =>
    intro fb n hn
    unfold applyOps at ih ⊢
    simp only [List.foldl_cons]
    obtain ⟨c, hc⟩ := writesIn_applyOp o
    rw [ih _ _ hn, writesIn_out hc fb n hn]

/-- An op list that starts by clearing the screen produces framebuffer
contents that, inside the buffer, do not depend on the previous contents. -/
theorem applyOps_clear_congr (c : Nat) (L : List Op) (fb fb' : FB) (n : Int)
    (hn : 0 ≤ n ∧ n < fbSize) :
    applyOps (Op.clear c :: L) fb n = applyOps (Op.clear c :: L) fb' n := by
  unfold applyOps
  simp only [List.foldl_cons]
  apply applyOps_pt
  show fbClear c fb n = fbClear c fb' n
  rw [fbClear_apply, fbClear_apply, if_pos hn, if_pos hn]

/-- Re-running a clear-headed op list on its own output reproduces that
output exactly. -/
theorem applyOps_clear_idem (c : Nat) (L : List Op) (fb : FB) :
    applyOps (Op.clear c :: L) (applyOps (Op.clear c :: L) fb) =
      applyOps (Op.clear c :: L) fb := by
  funext n
  by_cases hn : 0 ≤ n ∧ n < fbSize
  · exact applyOps_clear_congr c L _ fb n hn
  · have hn' : n < 0 ∨ fbSize ≤ n := by omega
    rw [applyOps_out _ _ _ hn']

/-! ### Color palette (part_000 lines 30–43): byte-swapped RGB565. -/

def SW (c : Nat) : Nat := ((c &&& 0xFF) <<< 8) ||| ((c >>> 8) &&& 0xFF)

def C_BG : Nat := 0x0000
def C_CARD : Nat := SW 0x1082
def C_CARD_HL : Nat := SW 0x2104
def C_TEXT : Nat := 0xFFFF
def C_TEXT_DIM : Nat := SW 0x7BEF
def C_GREEN : Nat := SW 0x07E0
def C_GREEN_DK : Nat := SW 0x03E0
def C_RED : Nat := SW 0xF800
def C_RED_DK : Nat := SW 0x7800
def C_ORANGE : Nat := SW 0xFD20
def C_CYAN : Nat := SW 0x07FF
def C_HEADER : Nat := SW 0x0841

/-! ### Monitor data and utility functions (part_000 lines 48–64, 304–335) -/

/-- `struct Monitor` (part_000:48). -/
structure Monitor where
  id : String
  name : String
  url : String
  status : String
  monitorType : String
  lastChecked : String
  checkFrequency : Int
  sslExpiration : Int
  domainExpiration : Int
  regions : String
  valid : Bool

instance : Inhabited Monitor :=
  ⟨⟨"", "", "", "", "", "", 0, 0, 0, "", false⟩⟩

/-- Arduino `String.indexOf(char)`: first index, or `-1` when absent. -/
def strIndexOfChar (s : String) (ch : Char) : Int :=
  match s.data.findIdx? (fun c => c = ch) with
  | some i => (i : Int)
  | none => -1

/-- `getDomain` (part_000:304): strip scheme, path and `www.`.
Arduino `substring(a)` / `substring(a, b)` are `drop` / `drop`+`take`. -/
def getDomain (url : String) : String :=
  let url := if url.startsWith "https://" then url.drop 8 else url
  let url := if url.startsWith "http://" then url.drop 7 else url
  let slash := strIndexOfChar url '/'
  let url := if slash > 0 then url.take slash.toNat else url
  if url.startsWith "www." then url.drop 4 else url

/-- `getStatusColor` (part_000:317). -/
def getStatusColor (status : String) : Nat :=
  if status = "up" then C_GREEN
  else if status = "down" then C_RED
  else if status = "validating" then C_ORANGE
  else if status = "pending" then C_CYAN
  else C_ORANGE

/-- `getStatusGlow` (part_000:329). -/
def getStatusGlow (status : String) : Nat :=
  if status = "up" then C_GREEN_DK
  else if status = "down" then C_RED_DK
  else C_HEADER

/-! ### Uptime-monitor UI state (part_000 lines 62–87)

The C globals gathered into one record.  `monitors[0..monitorCount)` is
the list `monitors` (`monitorCount` = its length; `fetchMonitors` caps it
at `MAX_MONITORS = 12`).  The `isRefreshing` flag is set and cleared
inside the synchronous `fetchMonitors` and is not observable between loop
iterations, so it is omitted. -/

structure UState where
  monitors : List Monitor
  scrollOffset : Int
  maxScroll : Int
  touchStartX : Int
  touchStartY : Int
  lastTouchX : Int
  lastTouchY : Int
  touchStartTime : Nat
  isTouching : Bool
  isDragging : Bool
  selectedMonitor : Int
  detailViewEnterTime : Nat
  lastUpdate : Nat

theorem UState.ext {s t : UState}
    (h1 : s.monitors = t.monitors) (h2 : s.scrollOffset = t.scrollOffset)
    (h3 : s.maxScroll = t.maxScroll) (h4 : s.touchStartX = t.touchStartX)
    (h5 : s.touchStartY = t.touchStartY) (h6 : s.lastTouchX = t.lastTouchX)
    (h7 : s.lastTouchY = t.lastTouchY) (h8 : s.touchStartTime = t.touchStartTime)
    (h9 : s.isTouching = t.isTouching) (h10 : s.isDragging = t.isDragging)
    (h11 : s.selectedMonitor = t.selectedMonitor)
    (h12 : s.detailViewEnterTime = t.detailViewEnterTime)
    (h13 : s.lastUpdate = t.lastUpdate) : s = t := by
  cases s
  cases t
  simp only at h1 h2 h3 h4 h5 h6 h7 h8 h9 h10 h11 h12 h13
  subst h1 h2 h3 h4 h5 h6 h7 h8 h9 h10 h11 h12 h13
  rfl

/-- `monitorCount` as an `int` (part_000:64). -/
def monitorCount (s : UState) : Int := (s.monitors.length : Int)

/-! ### List view rendering (part_000 lines 430–535) -/

/-- Number of monitors with status `"up"` (the `up` counter of
`drawListView`; the `down` counter is computed by the source but never
used in the rendering). -/
def upCount (ms : List Monitor) : Nat :=
  (ms.filter (fun m => m.status = "up")).length

/-- `drawMonitorCard` (part_000:430) as its list of primitive calls. -/
def cardOps (m : Monitor) (yPos : Int) : List Op :=
  if yPos < -90 ∨ 640 < yPos then []
  else
    let statusColor := getStatusColor m.status
    let glowColor := getStatusGlow m.status
    let isUp := m.status = "up"
    let domain := getDomain m.url
    let maxLen : Nat := if isUp then 14 else 11
    let domain :=
      if domain.length > maxLen then domain.take (maxLen - 2) ++ ".." else domain
    let nm := if m.name.length > 20 then m.name.take 18 ++ ".." else m.name
    [Op.roundRect 8 yPos 164 85 8 C_CARD,
     Op.roundRect 8 yPos 5 85 2 statusColor] ++
    (if ¬isUp then
       [Op.circle 152 (yPos + 25) 14 glowColor,
        Op.circle 152 (yPos + 25) 10 statusColor]
     else []) ++
    [Op.text 20 (yPos + 12) domain C_TEXT 2,
     Op.text 20 (yPos + 38) nm C_TEXT_DIM 1,
     Op.text 20 (yPos + 55) m.status statusColor 2,
     Op.text 100 (yPos + 70) (toString m.checkFrequency ++ "s") C_TEXT_DIM 1,
     Op.text 140 (yPos + 70) ">" C_TEXT_DIM 1]

/-- Scrollbar of `drawListView` (part_000:520–525), drawn only when
`monitorCount > 6` (so `maxScroll > 0` and the division is safe);
C `int` division is `Int.tdiv`. -/
def scrollbarOps (s : UState) : List Op :=
  let sbH := max 30 (Int.tdiv (570 * 570) (monitorCount s * 95))
  let sbY := 55 + Int.tdiv ((570 - sbH) * s.scrollOffset) s.maxScroll
  [Op.roundRect 175 55 3 570 1 C_HEADER,
   Op.roundRect 175 sbY 3 sbH 1 C_CYAN]

/-- `drawListView` body after the clear (part_000:480–532), for a state
whose `maxScroll`/`scrollOffset` have already been clamped (the clamp at
lines 502–506 happens before any op that reads them). -/
def listOpsRest (s : UState) (now : Nat) : List Op :=
  Op.rect 0 0 180 50 C_HEADER ::
  Op.text 10 16 "MONITORS" C_CYAN 2 ::
  Op.text 130 18 (toString (upCount s.monitors) ++ "/" ++ toString s.monitors.length)
    (if upCount s.monitors = s.monitors.length then C_GREEN else C_ORANGE) 2 ::
  Op.hline 0 50 180 C_CARD ::
  ((if s.monitors.length = 0 then
      [Op.textC 300 "No monitors" C_TEXT_DIM 2,
       Op.textC 330 "Tap to refresh" C_TEXT_DIM 1]
    else
      (List.range s.monitors.length).flatMap
        (fun i => cardOps (s.monitors.getD i default)
          (60 + (i : Int) * 95 - s.scrollOffset))) ++
   (if 6 < s.monitors.length then scrollbarOps s else []) ++
   [Op.rect 0 625 180 15 C_HEADER,
    Op.textC 627 ("Updated " ++ toString ((now - s.lastUpdate) / 1000) ++ "s ago")
      C_TEXT_DIM 1])

def listOps (s : UState) (now : Nat) : List Op :=
  Op.clear C_BG :: listOpsRest s now

/-- The clamp in `drawListView` (part_000:501–506): recompute the global
`maxScroll` from the current snapshot, then clamp `scrollOffset` from
above and below. -/
def clampScroll (s : UState) : UState :=
  let m := max 0 (monitorCount s * 95 - 570)
  let so := if s.scrollOffset > m then m else s.scrollOffset
  let so := if so < 0 then 0 else so
  { s with maxScroll := m, scrollOffset := so }

/-- `drawListView` (part_000:476): clamps the scroll state and renders the
header, cards, scrollbar and footer. -/
def drawListView (s : UState) (now : Nat) (fb : FB) : UState × FB :=
  (clampScroll s, applyOps (listOps (clampScroll s) now) fb)

/-! ### Detail view rendering (part_000 lines 540–657) -/

/-- `last_checked_at` display (part_000:638–645): if the string is long,
extract the 8 time characters after the `T` of the ISO timestamp. -/
def lastCheckDisplay (lc : String) : String :=
  if lc.length > 16 then
    let tIdx := strIndexOfChar lc 'T'
    if tIdx > 0 then (lc.drop (tIdx.toNat + 1)).take 8 else lc
  else lc

/-- The detail rows (part_000:585–647): Type and Check Interval always,
SSL / Domain expiration / Regions conditionally, Last Checked at the
accumulated `y` (`rowH = 50`). -/
def detailRows (m : Monitor) : List Op :=
  let y0 : Int := 270
  let y1 := y0 + 50
  let y2 := y1 + 50
  let y3 := if m.sslExpiration > 0 then y2 + 50 else y2
  let y4 := if m.domainExpiration > 0 then y3 + 50 else y3
  let regDisplay :=
    if m.regions.length > 14 then m.regions.take 12 ++ ".." else m.regions
  [Op.roundRect 10 y0 160 40 6 C_CARD,
   Op.text 18 (y0 + 8) "Type" C_TEXT_DIM 1,
   Op.text 18 (y0 + 22) m.monitorType C_TEXT 2,
   Op.roundRect 10 y1 160 40 6 C_CARD,
   Op.text 18 (y1 + 8) "Check Interval" C_TEXT_DIM 1,
   Op.text 18 (y1 + 22) (toString m.checkFrequency ++ " seconds") C_TEXT 2] ++
  (if m.sslExpiration > 0 then
     [Op.roundRect 10 y2 160 40 6 C_CARD,
      Op.text 18 (y2 + 8) "SSL Expires In" C_TEXT_DIM 1,
      Op.text 18 (y2 + 22) (toString m.sslExpiration ++ " days")
        (if m.sslExpiration < 14 then C_ORANGE else C_GREEN) 2]
   else []) ++
  (if m.domainExpiration > 0 then
     [Op.roundRect 10 y3 160 40 6 C_CARD,
      Op.text 18 (y3 + 8) "Domain Expires" C_TEXT_DIM 1,
      Op.text 18 (y3 + 22) (toString m.domainExpiration ++ " days")
        (if m.domainExpiration < 30 then C_ORANGE else C_GREEN) 2]
   else []) ++
  (if m.regions.length > 0 then
     [Op.roundRect 10 y4 160 40 6 C_CARD,
      Op.text 18 (y4 + 8) "Regions" C_TEXT_DIM 1,
      Op.text 18 (y4 + 22) regDisplay C_TEXT 2]
   else []) ++
  (let y5 := if m.regions.length > 0 then y4 + 50 else y4
   [Op.roundRect 10 y5 160 40 6 C_CARD,
    Op.text 18 (y5 + 8) "Last Checked" C_TEXT_DIM 1,
    Op.text 18 (y5 + 22) (lastCheckDisplay m.lastChecked) C_TEXT 2])

/-- `drawDetailView` body after the clear (part_000:550–654).  The source
computes the progress fraction in 32-bit `float`
(`elapsed / DETAIL_TIMEOUT`, clamped at `1.0`, times 640 truncated to
`int`); it is modelled with exact integer arithmetic — the properties
proved here (determinism, invalid-index behaviour) do not depend on the
float rounding, only on the bar height being a function of `elapsed`. -/
def detailOpsRest (s : UState) (now : Nat) : List Op :=
  let m := s.monitors.getD s.selectedMonitor.toNat default
  let statusColor := getStatusColor m.status
  let glowColor := getStatusGlow m.status
  let elapsed := now - s.detailViewEnterTime
  let barHeight : Int := ((640 * min elapsed 10000) / 10000 : Nat)
  let domain := getDomain m.url
  let domain := if domain.length > 14 then domain.take 12 ++ ".." else domain
  let urlDisplay := if m.url.length > 28 then m.url.take 26 ++ ".." else m.url
  Op.rect 0 0 6 640 C_HEADER ::
  Op.rect 0 0 6 barHeight C_CYAN ::
  Op.rect 6 0 174 50 C_HEADER ::
  Op.text 16 16 "DETAILS" C_TEXT_DIM 2 ::
  Op.circle 96 100 35 glowColor ::
  Op.circle 96 100 28 statusColor ::
  Op.textC 155 m.status.toUpper statusColor 3 ::
  Op.textC 200 domain C_TEXT 2 ::
  Op.textC 225 (m.name.take 20) C_TEXT_DIM 1 ::
  (detailRows m ++
   [Op.text 10 600 "URL:" C_TEXT_DIM 1,
    Op.text 10 615 urlDisplay C_CYAN 1])

def detailOps (s : UState) (now : Nat) : List Op :=
  Op.clear C_BG :: detailOpsRest s now

/-- `drawDetailView` (part_000:540): early return — no drawing, no state
change — when `selectedMonitor` is not a valid index into the snapshot. -/
def drawDetailView (s : UState) (now : Nat) (fb : FB) : UState × FB :=
  if s.selectedMonitor < 0 ∨ monitorCount s ≤ s.selectedMonitor then (s, fb)
  else (s, applyOps (detailOps s now) fb)

/-- `drawUI` (part_000:662): detail view when a monitor is selected,
otherwise list view. -/
def drawUI (s : UState) (now : Nat) (fb : FB) : UState × FB :=
  if 0 ≤ s.selectedMonitor then drawDetailView s now fb
  else drawListView s now fb

theorem pairFst {α β : Type} (a : α) (b : β) : (a, b).1 = a := rfl

theorem pairSnd {α β : Type} (a : α) (b : β) : (a, b).2 = b := rfl

theorem clampScroll_sel (s : UState) :
    (clampScroll s).selectedMonitor = s.selectedMonitor := rfl

theorem clampScroll_monitors (s : UState) :
    (clampScroll s).monitors = s.monitors := rfl

theorem clampScroll_idem (s : UState) :
    clampScroll (clampScroll s) = clampScroll s := by
  apply UState.ext <;> try rfl
  · show (clampScroll (clampScroll s)).scrollOffset = (clampScroll s).scrollOffset
    unfold clampScroll monitorCount
    simp only
    split_ifs <;> omega

theorem drawUI_stale (s : UState) (now : Nat) (fb : FB)
    (h0 : 0 ≤ s.selectedMonitor) (h1 : monitorCount s ≤ s.selectedMonitor) :
    drawUI s now fb = (s, fb) := by
  unfold drawUI
  rw [if_pos h0]
  unfold drawDetailView
  rw [if_pos (Or.inr h1)]

theorem drawUI_detail_valid (s : UState) (now : Nat) (fb : FB)
    (h0 : 0 ≤ s.selectedMonitor) (h1 : s.selectedMonitor < monitorCount s) :
    drawUI s now fb = (s, applyOps (detailOps s now) fb) := by
  unfold drawUI
  rw [if_pos h0]
  unfold drawDetailView
  rw [if_neg (by omega : ¬(s.selectedMonitor < 0 ∨ monitorCount s ≤ s.selectedMonitor))]

theorem drawUI_list (s : UState) (now : Nat) (fb : FB)
    (h0 : ¬0 ≤ s.selectedMonitor) :
    drawUI s now fb = (clampScroll s, applyOps (listOps (clampScroll s) now) fb) := by
  unfold drawUI drawListView
  rw [if_neg h0]

/-- A reachable stale-detail scenario: the detail view is showing monitor
index 1 when a refresh replaces the snapshot by an empty one. -/
def staleDetailState : UState :=
  { monitors := [], scrollOffset := 0, maxScroll := 0, touchStartX := -1,
    touchStartY := -1, lastTouchX := -1, lastTouchY := -1, touchStartTime := 0,
    isTouching := false, isDragging := false, selectedMonitor := 1,
    detailViewEnterTime := 0, lastUpdate := 0 }

/-- Counterexample to C4: with `selectedMonitor = 1` and an empty
snapshot, rendering does NOT force the view state back to List —
`drawUI` leaves `selectedMonitor` at 1 (detail view), the claim's
"forced back to List" (`selectedMonitor < 0`) fails. -/
theorem stale_detail_not_forced_to_list :
    monitorCount staleDetailState ≤ staleDetailState.selectedMonitor ∧
    (drawUI staleDetailState 0 zfb).1.selectedMonitor = 1 ∧
    ¬(drawUI staleDetailState 0 zfb).1.selectedMonitor < 0 := by
  refine ⟨by decide, ?_, ?_⟩
  · rw [drawUI_stale staleDetailState 0 zfb (by decide) (by decide)]
    rfl
  · rw [drawUI_stale staleDetailState 0 zfb (by decide) (by decide)]
    decide

/-- C4 (amended): when the Detail view's selected index is no longer a
valid index into the current snapshot (`selectedMonitor ≥ monitorCount`),
the render is skipped entirely — no stale or invalid data is drawn and
the state is unchanged (still Detail); the view returns to List only
through the detail timeout in `loop`, not through this guard. -/
theorem stale_detail_render_skipped (s : UState) (now : Nat) (fb : FB)
    (h0 : 0 ≤ s.selectedMonitor) (h1 : monitorCount s ≤ s.selectedMonitor) :
    drawUI s now fb = (s, fb) :=
  drawUI_stale s now fb h0 h1

/-- Witness for the amended C4 at the concrete stale state. -/
theorem stale_detail_render_skipped_witness :
    (0 ≤ staleDetailState.selectedMonitor ∧
     monitorCount staleDetailState ≤ staleDetailState.selectedMonitor) ∧
    drawUI staleDetailState 5 zfb = (staleDetailState, zfb) :=
  ⟨⟨by decide, by decide⟩,
   stale_detail_render_skipped staleDetailState 5 zfb (by decide) (by decide)⟩

/-- C5: rendering is deterministic — it is a pure function of the view
state, the snapshot and the clock, and starts by clearing the buffer, so
invoking the render operation a second time with identical view state,
snapshot contents and clock timestamp (on the framebuffer produced by the
first invocation) reproduces exactly the same state and framebuffer
contents. -/
theorem render_roundtrip_deterministic (s : UState) (now : Nat) (fb : FB) :
    drawUI (drawUI s now fb).1 now (drawUI s now fb).2 = drawUI s now fb := by
  by_cases h0 : 0 ≤ s.selectedMonitor
  · by_cases h1 : monitorCount s ≤ s.selectedMonitor
    · rw [drawUI_stale s now fb h0 h1]
      exact drawUI_stale s now fb h0 h1
    · push_neg at h1
      rw [drawUI_detail_valid s now fb h0 h1]
      rw [pairFst, pairSnd, drawUI_detail_valid s now _ h0 h1]
      have hd : detailOps s now = Op.clear C_BG :: detailOpsRest s now := rfl
      rw [hd, applyOps_clear_idem]
  · rw [drawUI_list s now fb h0]
    have h0' : ¬0 ≤ (clampScroll s).selectedMonitor := by
      rw [clampScroll_sel]
      exact h0
    rw [pairFst, pairSnd, drawUI_list (clampScroll s) now _ h0', clampScroll_idem]
    have hl : listOps (clampScroll s) now =
        Op.clear C_BG :: listOpsRest (clampScroll s) now := rfl
    rw [hl, applyOps_clear_idem]

/-! ### Touch handler and main loop (part_000 lines 673–747, 795–839) -/

/-- The list-view tap test at touch-up (part_000:719):
`touchDuration < 500 && totalMoveY < 30 && abs(totalMoveX) < 30`, where
`totalMoveY = abs(lastTouchY - touchStartY)` and
`totalMoveX = lastTouchX - touchStartX`. -/
def listTapClassified (touchDuration : Nat) (totalMoveX totalMoveY : Int) : Bool :=
  decide (touchDuration < 500) && decide (totalMoveY < 30) &&
    decide (|totalMoveX| < 30)

/-- The effect of a `drawUI()` call on the UI state: the list view's
clamp of `maxScroll`/`scrollOffset` (part_000:501–506); the detail view
changes no state.  (`drawUI_state_effect` below proves this is exactly
`(drawUI s now fb).1`.) -/
def drawUIState (s : UState) : UState :=
  if 0 ≤ s.selectedMonitor then s else clampScroll s

theorem drawUI_state_effect (s : UState) (now : Nat) (fb : FB) :
    (drawUI s now fb).1 = drawUIState s := by
  unfold drawUI drawUIState drawDetailView drawListView
  by_cases h0 : 0 ≤ s.selectedMonitor
  · rw [if_pos h0, if_pos h0]
    by_cases h1 : s.selectedMonitor < 0 ∨ monitorCount s ≤ s.selectedMonitor
    · rw [if_pos h1]
    · rw [if_neg h1]
  · rw [if_neg h0, if_neg h0, pairFst]

theorem drawUIState_sel (s : UState) :
    (drawUIState s).selectedMonitor = s.selectedMonitor := by
  unfold drawUIState
  by_cases h : 0 ≤ s.selectedMonitor
  · rw [if_pos h]
  · rw [if_neg h, clampScroll_sel]

/-- Modelled effect of `fetchMonitors()` (part_000:370–425): on HTTP/JSON
success the snapshot is replaced wholesale by the decoded records,
truncated at `MAX_MONITORS = 12`; on failure (or no WiFi) it is left
unchanged.  The network is external, so the decoded list — or `none` for
a failed fetch — is passed in as a parameter. -/
def fetchMonitorsInto (s : UState) (fetched : Option (List Monitor)) : UState :=
  match fetched with
  | none => s
  | some l => { s with monitors := l.take 12 }

theorem fetchMonitorsInto_sel (s : UState) (f : Option (List Monitor)) :
    (fetchMonitorsInto s f).selectedMonitor = s.selectedMonitor := by
  cases f <;> rfl

/-- `handleTouch` (part_000:673) as a state transition.  `touch` is the
decoded sample of this poll (`readTouch`), `now` is `millis()` (the
handler's few `millis()` reads within one invocation are microseconds
apart and modelled as one value), `fetched` is the provider's response
should the header-tap refresh fire.  `drawSplash` and the `drawUI()`
calls affect the screen, not the UI state, except for the list clamp
(`drawUIState`). -/
def handleTouchU (s : UState) (touch : Option (Int × Int)) (now : Nat)
    (fetched : Option (List Monitor)) : UState :=
  match touch with
  | some (tx, ty) =>
    if s.isTouching then
      -- touch move (part_000:687–699)
      let deltaY := s.lastTouchY - ty
      let dragging :=
        if 15 < |ty - s.touchStartY| ∨ 15 < |tx - s.touchStartX| then true
        else s.isDragging
      let so :=
        if dragging = true ∧ s.selectedMonitor < 0 then s.scrollOffset + deltaY
        else s.scrollOffset
      { s with isDragging := dragging, scrollOffset := so,
               lastTouchX := tx, lastTouchY := ty }
    else
      -- touch start (part_000:677–686)
      { s with isTouching := true, touchStartX := tx, touchStartY := ty,
               lastTouchX := tx, lastTouchY := ty,
               touchStartTime := now, isDragging := false }
  | none =>
    if s.isTouching then
      -- touch end (part_000:700–746)
      let touchDuration := now - s.touchStartTime
      let totalMoveY := |s.lastTouchY - s.touchStartY|
      let totalMoveX := s.lastTouchX - s.touchStartX
      let s' :=
        if 0 ≤ s.selectedMonitor then
          -- detail view: any touch resets the auto-return timer (711–715)
          { s with detailViewEnterTime := now }
        else
          -- list view (717–741)
          if listTapClassified touchDuration totalMoveX totalMoveY then
            if 55 < s.touchStartY ∧ s.touchStartY < 620 then
              let cardIdx := Int.tdiv (s.touchStartY - 60 + s.scrollOffset) 95
              if 0 ≤ cardIdx ∧ cardIdx < monitorCount s then
                drawUIState
                  { s with selectedMonitor := cardIdx,
                           detailViewEnterTime := now }
              else s
            else if s.touchStartY < 55 then
              drawUIState
                { fetchMonitorsInto s fetched with lastUpdate := now }
            else s
          else s
      { s' with isTouching := false, isDragging := false }
    else s

/-- `DETAIL_TIMEOUT` (part_000:87). -/
def DETAIL_TIMEOUT : Nat := 10000

/-- The detail auto-return check of `loop` (part_000:814–818):
`millis() - detailViewEnterTime > DETAIL_TIMEOUT` (strict) sends the view
back to the list and redraws (which clamps the scroll state). -/
def detailTimeoutCheck (s : UState) (now : Nat) : UState :=
  if DETAIL_TIMEOUT < now - s.detailViewEnterTime then
    drawUIState { s with selectedMonitor := -1 }
  else s

/-- The `static` locals of `loop` (part_000:799, 807, 832). -/
structure LoopLocals where
  lastScrollOffset : Int
  lastDetailRedraw : Nat
  lastTimeUpdate : Nat

/-- One iteration of `loop` (part_000:795–839) on the UI state:
`handleTouch`, the scroll-change redraw, the detail animation/auto-return
block, the auto refresh (`fetchedAuto` = provider response, `none` when
WiFi/HTTP fails) and the footer-time redraw.  `delay(20)` and the panel
flushes are external.  The detail animation redraw (809–812) only touches
the framebuffer, so only its `lastDetailRedraw` update appears here. -/
def loopIter (s : UState) (l : LoopLocals) (touch : Option (Int × Int))
    (now : Nat) (fetchedTap fetchedAuto : Option (List Monitor)) :
    UState × LoopLocals :=
  let s1 := handleTouchU s touch now fetchedTap
  let p2 :=
    if s1.scrollOffset ≠ l.lastScrollOffset ∧ s1.selectedMonitor < 0 then
      (drawUIState s1, { l with lastScrollOffset := (drawUIState s1).scrollOffset })
    else (s1, l)
  let s2 := p2.1
  let l2 := p2.2
  let p3 :=
    if 0 ≤ s2.selectedMonitor then
      (detailTimeoutCheck s2 now,
       if 100 < now - l2.lastDetailRedraw then { l2 with lastDetailRedraw := now }
       else l2)
    else (s2, l2)
  let s3 := p3.1
  let l3 := p3.2
  let s4 :=
    if s3.selectedMonitor < 0 ∧ 60000 < now - s3.lastUpdate then
      { drawUIState (fetchMonitorsInto s3 fetchedAuto) with lastUpdate := now }
    else s3
  if 10000 < now - l3.lastTimeUpdate ∧ s4.selectedMonitor < 0 then
    (drawUIState s4, { l3 with lastTimeUpdate := now })
  else (s4, l3)

/-! ### C1: scroll bounds -/

/-- The spec's scroll invariant: `scrollOffset ∈ [0, maxScroll]` with
`maxScroll = max(0, monitorCount*95 − 570)`. -/
def ScrollInv (s : UState) : Prop :=
  0 ≤ s.scrollOffset ∧ s.scrollOffset ≤ max 0 (monitorCount s * 95 - 570)

theorem clampScroll_inv (s : UState) : ScrollInv (clampScroll s) := by
  unfold ScrollInv clampScroll monitorCount
  dsimp only
  constructor <;> split_ifs <;> omega

theorem drawUIState_neg (s : UState) (h : ¬0 ≤ s.selectedMonitor) :
    drawUIState s = clampScroll s := by
  unfold drawUIState
  rw [if_neg h]

theorem scrollInv_lastUpdate (t : UState) (now : Nat) (h : ScrollInv t) :
    ScrollInv { t with lastUpdate := now } := h

theorem updLastUpdate_sel (u : UState) (n : Nat) :
    ({ u with lastUpdate := n } : UState).selectedMonitor = u.selectedMonitor := rfl

/-- A list-view drag in progress: finger down at (0, 100), no monitors
loaded (`maxScroll = 0`). -/
def dragListState : UState :=
  { monitors := [], scrollOffset := 0, maxScroll := 0, touchStartX := 0,
    touchStartY := 100, lastTouchX := 0, lastTouchY := 100, touchStartTime := 0,
    isTouching := true, isDragging := false, selectedMonitor := -1,
    detailViewEnterTime := 0, lastUpdate := 0 }

/-- Counterexample to C1: the drag-delta mutation in `handleTouch`
(`scrollOffset += deltaY`, part_000:694–697) applies no clamp.  Moving
the finger from (0,100) to (0,80) in an empty list sets
`scrollOffset = 20`, while `maxScroll = max(0, 0*95−570) = 0` — so
immediately after the mutation `scrollOffset ∉ [0, maxScroll]`. -/
theorem scroll_mutation_escapes_bounds :
    (handleTouchU dragListState (some (0, 80)) 50 none).scrollOffset = 20 ∧
    max 0 (monitorCount (handleTouchU dragListState (some (0, 80)) 50 none)
      * 95 - 570) = 0 ∧
    ¬ScrollInv (handleTouchU dragListState (some (0, 80)) 50 none) := by
  refine ⟨by decide, by decide, ?_⟩
  unfold ScrollInv
  decide

/-- C1 (amended): the drag mutation itself is unclamped, but within the
same `loop` iteration the scroll-change redraw condition
(`scrollOffset != lastScrollOffset && selectedMonitor < 0`,
part_000:800) fires and `drawListView` clamps `scrollOffset` into
`[0, max(0, monitorCount*95 − 570)]`; the bound then still holds at the
end of the iteration whatever later blocks (auto refresh, footer redraw)
do. -/
theorem scroll_clamped_within_iteration (s : UState) (l : LoopLocals)
    (touch : Option (Int × Int)) (now : Nat) (ft fa : Option (List Monitor))
    (hmut : (handleTouchU s touch now ft).scrollOffset ≠ l.lastScrollOffset ∧
            (handleTouchU s touch now ft).selectedMonitor < 0) :
    ScrollInv (loopIter s l touch now ft fa).1 := by
  unfold loopIter
  dsimp only
  rw [if_pos hmut]
  simp only [pairFst, pairSnd]
  set t := drawUIState (handleTouchU s touch now ft) with ht
  have hts : t.selectedMonitor < 0 := by
    rw [ht, drawUIState_sel]
    exact hmut.2
  have hinv : ScrollInv t := by
    rw [ht, drawUIState_neg _ (by omega)]
    exact clampScroll_inv _
  rw [if_neg (show ¬0 ≤ t.selectedMonitor by omega)]
  have hfsel : (fetchMonitorsInto t fa).selectedMonitor < 0 := by
    rw [fetchMonitorsInto_sel]
    exact hts
  split_ifs with h4 h5 h6 <;> simp only [pairFst]
  · rw [drawUIState_neg _ (by rw [updLastUpdate_sel, drawUIState_sel]; omega)]
    exact clampScroll_inv _
  · apply scrollInv_lastUpdate
    rw [drawUIState_neg _ (by omega)]
    exact clampScroll_inv _
  · rw [drawUIState_neg _ (by omega)]
    exact clampScroll_inv _
  · exact hinv

/-- Witness for the amended C1: the unclamped drag of
`scroll_mutation_escapes_bounds` is clamped back to the bound by the end
of the same loop iteration. -/
theorem scroll_clamped_within_iteration_witness :
    ((handleTouchU dragListState (some (0, 80)) 50 none).scrollOffset ≠ (0 : Int) ∧
     (handleTouchU dragListState (some (0, 80)) 50 none).selectedMonitor < 0) ∧
    ScrollInv (loopIter dragListState ⟨0, 0, 0⟩ (some (0, 80)) 50 none none).1 :=
  ⟨⟨by decide, by decide⟩,
   scroll_clamped_within_iteration dragListState ⟨0, 0, 0⟩ (some (0, 80)) 50
     none none ⟨by decide, by decide⟩⟩

/-! ### C2: tap classification -/

/-- C2: a List-view touch cycle whose duration is under 500 ms and whose
displacement is under 15 px on both axes is classified as a Tap at
touch-up (the source's thresholds are 30 px, so 15 px displacement is
comfortably inside them), and the tap action is taken: when the start
position lies on a valid card row the corresponding monitor is selected
and the detail timer started. -/
theorem tap_within_thresholds_classified (s : UState) (now : Nat)
    (fetched : Option (List Monitor))
    (hT : s.isTouching = true) (hL : s.selectedMonitor < 0)
    (hdur : now - s.touchStartTime < 500)
    (hdx : |s.lastTouchX - s.touchStartX| < 15)
    (hdy : |s.lastTouchY - s.touchStartY| < 15) :
    listTapClassified (now - s.touchStartTime) (s.lastTouchX - s.touchStartX)
      |s.lastTouchY - s.touchStartY| = true ∧
    (55 < s.touchStartY → s.touchStartY < 620 →
      0 ≤ Int.tdiv (s.touchStartY - 60 + s.scrollOffset) 95 →
      Int.tdiv (s.touchStartY - 60 + s.scrollOffset) 95 < monitorCount s →
      (handleTouchU s none now fetched).selectedMonitor =
        Int.tdiv (s.touchStartY - 60 + s.scrollOffset) 95 ∧
      (handleTouchU s none now fetched).detailViewEnterTime = now) := by
  have hc : listTapClassified (now - s.touchStartTime)
      (s.lastTouchX - s.touchStartX) |s.lastTouchY - s.touchStartY| = true := by
    unfold listTapClassified
    simp only [Bool.and_eq_true, decide_eq_true_eq]
    refine ⟨⟨hdur, by omega⟩, by omega⟩
  refine ⟨hc, ?_⟩
  intro h55 h620 hi0 hic
  simp only [handleTouchU]
  rw [if_pos hT, if_neg (by omega : ¬0 ≤ s.selectedMonitor), if_pos hc,
    if_pos ⟨h55, h620⟩, if_pos ⟨hi0, hic⟩]
  have hX : drawUIState
      { s with selectedMonitor := Int.tdiv (s.touchStartY - 60 + s.scrollOffset) 95,
               detailViewEnterTime := now } =
      { s with selectedMonitor := Int.tdiv (s.touchStartY - 60 + s.scrollOffset) 95,
               detailViewEnterTime := now } := by
    unfold drawUIState
    rw [if_pos hi0]
  rw [hX]
  exact ⟨rfl, rfl⟩

/-- Scenario B of the spec: touch-down at (10,10), touch-up 300 ms later
with the last sample at (12,14). -/
def scenarioBState : UState :=
  { monitors := [], scrollOffset := 0, maxScroll := 0, touchStartX := 10,
    touchStartY := 10, lastTouchX := 12, lastTouchY := 14, touchStartTime := 0,
    isTouching := true, isDragging := false, selectedMonitor := -1,
    detailViewEnterTime := 0, lastUpdate := 0 }

/-- Witness for C2 at Scenario B (displacement (2,4) px, duration 300 ms). -/
theorem tap_within_thresholds_classified_witness :
    (scenarioBState.isTouching = true ∧ scenarioBState.selectedMonitor < 0 ∧
     300 - scenarioBState.touchStartTime < 500 ∧
     |scenarioBState.lastTouchX - scenarioBState.touchStartX| < 15 ∧
     |scenarioBState.lastTouchY - scenarioBState.touchStartY| < 15) ∧
    (listTapClassified (300 - scenarioBState.touchStartTime)
      (scenarioBState.lastTouchX - scenarioBState.touchStartX)
      |scenarioBState.lastTouchY - scenarioBState.touchStartY| = true ∧
    (55 < scenarioBState.touchStartY → scenarioBState.touchStartY < 620 →
      0 ≤ Int.tdiv (scenarioBState.touchStartY - 60 + scenarioBState.scrollOffset) 95 →
      Int.tdiv (scenarioBState.touchStartY - 60 + scenarioBState.scrollOffset) 95 <
        monitorCount scenarioBState →
      (handleTouchU scenarioBState none 300 none).selectedMonitor =
        Int.tdiv (scenarioBState.touchStartY - 60 + scenarioBState.scrollOffset) 95 ∧
      (handleTouchU scenarioBState none 300 none).detailViewEnterTime = 300)) :=
  ⟨⟨by decide, by decide, by decide, by decide, by decide⟩,
   tap_within_thresholds_classified scenarioBState 300 none (by decide)
     (by decide) (by decide) (by decide) (by decide)⟩

/-! ### C3: detail auto-return timing -/

theorem handleTouchU_idle (s : UState) (now : Nat) (f : Option (List Monitor))
    (h : s.isTouching = false) : handleTouchU s none now f = s := by
  simp only [handleTouchU]
  rw [if_neg (by rw [h]; exact Bool.false_ne_true)]

/-- Detail view showing monitor 3, entered at t = 0, observed by the loop
at t = 10000 exactly; the snapshot itself is irrelevant to the timeout
check. -/
def scenarioDState : UState :=
  { monitors := [], scrollOffset := 0, maxScroll := 0, touchStartX := -1,
    touchStartY := -1, lastTouchX := -1, lastTouchY := -1, touchStartTime := 0,
    isTouching := false, isDragging := false, selectedMonitor := 3,
    detailViewEnterTime := 0, lastUpdate := 10000 }

/-- Counterexample to C3: the loop's auto-return test is strict
(`millis() - detailViewEnterTime > DETAIL_TIMEOUT`, part_000:814), so at
exactly `now - enteredAt = timeoutMs` the condition does NOT yet hold:
the iteration leaves the view in Detail(3), while the claim demands List
already at `≥ timeoutMs`. -/
theorem detail_not_returned_at_exact_timeout :
    10000 - scenarioDState.detailViewEnterTime = DETAIL_TIMEOUT ∧
    (loopIter scenarioDState ⟨0, 10000, 10000⟩ none 10000 none none).1.selectedMonitor
      = 3 ∧
    ¬(loopIter scenarioDState ⟨0, 10000, 10000⟩ none 10000 none
        none).1.selectedMonitor < 0 := by
  refine ⟨by decide, by decide, by decide⟩

/-- C3 (amended): with no touch in progress, a loop iteration returns the
Detail view to List exactly when `now − enteredAt` strictly exceeds
`DETAIL_TIMEOUT` (10000 ms); at `now − enteredAt ≤ timeoutMs` — including
at exactly the timeout — the UI state is left untouched.  In particular,
Scenario D's t = 10001 returns to List. -/
theorem detail_auto_return_strictly_after_timeout (s : UState) (l : LoopLocals)
    (now : Nat) (fa : Option (List Monitor))
    (hsel : 0 ≤ s.selectedMonitor) (htouch : s.isTouching = false) :
    (DETAIL_TIMEOUT < now - s.detailViewEnterTime →
      (loopIter s l none now none fa).1.selectedMonitor = -1) ∧
    (now - s.detailViewEnterTime ≤ DETAIL_TIMEOUT →
      (loopIter s l none now none fa).1 = s) := by
  unfold loopIter
  dsimp only
  rw [handleTouchU_idle s now none htouch]
  rw [if_neg (by omega :
    ¬(s.scrollOffset ≠ l.lastScrollOffset ∧ s.selectedMonitor < 0))]
  simp only [pairFst, pairSnd]
  rw [if_pos hsel]
  simp only [pairFst, pairSnd]
  constructor
  · intro hgt
    unfold detailTimeoutCheck
    rw [if_pos hgt]
    have hneg : drawUIState ({ s with selectedMonitor := -1 } : UState) =
        clampScroll { s with selectedMonitor := -1 } :=
      drawUIState_neg _ (by show ¬(0 : Int) ≤ -1; decide)
    rw [hneg]
    have hu : (clampScroll { s with selectedMonitor := -1 }).selectedMonitor
        = -1 := by
      rw [clampScroll_sel]
    split_ifs <;> (try simp only [pairFst]) <;>
      (try simp only [drawUIState_sel, updLastUpdate_sel, fetchMonitorsInto_sel]) <;>
      exact hu
  · intro hle
    unfold detailTimeoutCheck
    rw [if_neg (by omega : ¬DETAIL_TIMEOUT < now - s.detailViewEnterTime)]
    rw [if_neg (by omega : ¬(s.selectedMonitor < 0 ∧ 60000 < now - s.lastUpdate))]
    split_ifs <;> first
      | (exfalso; omega)
      | rw [pairFst]

/-- Witness for the amended C3 at Scenario D, t = 10001: the view returns
to List one millisecond after the timeout. -/
theorem detail_auto_return_strictly_after_timeout_witness :
    (0 ≤ scenarioDState.selectedMonitor ∧ scenarioDState.isTouching = false) ∧
    ((DETAIL_TIMEOUT < 10001 - scenarioDState.detailViewEnterTime →
      (loopIter scenarioDState ⟨0, 10001, 10001⟩ none 10001 none
        none).1.selectedMonitor = -1) ∧
     (10001 - scenarioDState.detailViewEnterTime ≤ DETAIL_TIMEOUT →
      (loopIter scenarioDState ⟨0, 10001, 10001⟩ none 10001 none none).1 =
        scenarioDState)) :=
  ⟨⟨by decide, by decide⟩,
   detail_auto_return_strictly_after_timeout scenarioDState ⟨0, 10001, 10001⟩
     10001 none (by decide) (by decide)⟩

/-! ### C10: touches in Detail only reset the timer -/

/-- C10: while the view is in Detail, no touch event changes
`selectedMonitor` — a completed touch-up cycle (whatever its duration,
displacement or position) only resets `detailViewEnterTime` to the
current time; the only transition back to List is the strict elapse of
`DETAIL_TIMEOUT` in the loop's auto-return check. -/
theorem detail_touch_only_resets_timer (s : UState) (touch : Option (Int × Int))
    (now : Nat) (f : Option (List Monitor)) (hsel : 0 ≤ s.selectedMonitor) :
    (handleTouchU s touch now f).selectedMonitor = s.selectedMonitor ∧
    (s.isTouching = true → touch = none →
      (handleTouchU s touch now f).detailViewEnterTime = now) ∧
    (now - s.detailViewEnterTime ≤ DETAIL_TIMEOUT →
      detailTimeoutCheck s now = s) ∧
    (DETAIL_TIMEOUT < now - s.detailViewEnterTime →
      (detailTimeoutCheck s now).selectedMonitor = -1) := by
  refine ⟨?_, ?_, ?_, ?_⟩
  · cases touch with
    | some p =>
      obtain ⟨tx, ty⟩ := p
      simp only [handleTouchU]
      split_ifs <;> rfl
    | none =>
      simp only [handleTouchU]
      split_ifs <;> rfl
  · intro hT htn
    subst htn
    simp only [handleTouchU]
    rw [if_pos hT, if_pos hsel]
  · intro hle
    unfold detailTimeoutCheck
    rw [if_neg (by omega : ¬DETAIL_TIMEOUT < now - s.detailViewEnterTime)]
  · intro hgt
    unfold detailTimeoutCheck
    rw [if_pos hgt, drawUIState_sel]

/-- Detail view, a long 900 ms drag of 200 px just ended: still only the
timer is reset. -/
def detailTapState : UState :=
  { monitors := [], scrollOffset := 0, maxScroll := 0, touchStartX := 90,
    touchStartY := 300, lastTouchX := 95, lastTouchY := 500, touchStartTime := 0,
    isTouching := true, isDragging := true, selectedMonitor := 2,
    detailViewEnterTime := 100, lastUpdate := 0 }

/-- Witness for C10 at a long, far-moving touch cycle in Detail. -/
theorem detail_touch_only_resets_timer_witness :
    0 ≤ detailTapState.selectedMonitor ∧
    ((handleTouchU detailTapState none 900 none).selectedMonitor =
      detailTapState.selectedMonitor ∧
     (detailTapState.isTouching = true → (none : Option (Int × Int)) = none →
       (handleTouchU detailTapState none 900 none).detailViewEnterTime = 900) ∧
     (900 - detailTapState.detailViewEnterTime ≤ DETAIL_TIMEOUT →
       detailTimeoutCheck detailTapState 900 = detailTapState) ∧
     (DETAIL_TIMEOUT < 900 - detailTapState.detailViewEnterTime →
       (detailTimeoutCheck detailTapState 900).selectedMonitor = -1)) :=
  ⟨by decide,
   detail_touch_only_resets_timer detailTapState none 900 none (by decide)⟩

/-! ### C6: touch decoder (part_000 lines 262–299, identical in
part_001 lines 381–417) -/

/-- `readTouch` decode logic as a pure function.  `responded` is whether
the I2C poll produced data within the 20 ms wait (otherwise the function
returns false = "no touch"); `buf` is the 8-byte response
(`buf[0]` = gesture code, `buf[1]` = point count, bytes 2–5 the first
point's coordinates).  A touch is reported iff `points > 0 && gesture == 0`;
the raw 12-bit coordinates are axis-swapped (`x = rawY`,
`y = 640 - rawX`) and clamped to the 180×640 display. -/
def readTouchDecode (responded : Bool) (buf : List Nat) : Option (Int × Int) :=
  if ¬responded then none
  else
    let gesture := buf.getD 0 0
    let points := buf.getD 1 0
    if 0 < points ∧ gesture = 0 then
      let rawX : Int := (((buf.getD 2 0 &&& 0x0F) <<< 8) ||| buf.getD 3 0 : Nat)
      let rawY : Int := (((buf.getD 4 0 &&& 0x0F) <<< 8) ||| buf.getD 5 0 : Nat)
      let x := rawY
      let y := 640 - rawX
      let y := if y < 0 then 0 else y
      let y := if y > 639 then 639 else y
      let x := if x < 0 then 0 else x
      let x := if x > 179 then 179 else x
      some (x, y)
    else none

/-- Counterexample to C6: a sample reporting TWO touch points with
gesture code 0 (`buf = [0, 2, 0, 50, 0, 60, 0, 0]`) is NOT collapsed to
"no touch" — the decoder reports a touch at the first point's transformed
coordinates (60, 590). -/
theorem multi_touch_not_collapsed :
    (readTouchDecode true [0, 2, 0, 50, 0, 60, 0, 0]).isSome = true ∧
    readTouchDecode true [0, 2, 0, 50, 0, 60, 0, 0] = some (60, 590) := by
  refine ⟨by decide, by decide⟩

/-- C6 (amended): the decoder reports "no touch" for a poll exactly when
the hardware did not respond in time, the gesture code is nonzero
(unrecognized), or the point count is zero.  A sample with gesture 0 and
at least one point — including a multi-touch sample with `points > 1` —
is reported as a single touch at the first point's transformed
coordinates. -/
theorem readTouch_none_characterisation (responded : Bool) (buf : List Nat) :
    readTouchDecode responded buf = none ↔
      (responded = false ∨ buf.getD 0 0 ≠ 0 ∨ buf.getD 1 0 = 0) := by
  unfold readTouchDecode
  by_cases hr : responded
  · rw [if_neg (by simp [hr])]
    by_cases hp : 0 < buf.getD 1 0 ∧ buf.getD 0 0 = 0
    · rw [if_pos hp]
      simp only [reduceCtorEq, false_iff]
      push_neg
      refine ⟨by simp [hr], hp.2, by omega⟩
    · rw [if_neg hp]
      simp only [true_iff]
      rcases Decidable.not_and_iff_or_not.mp hp with h | h
      · right
        right
        omega
      · right
        left
        exact h
  · have hr' : responded = false := by simp at hr; exact hr
    rw [if_pos (by simp [hr'])]
    simp [hr']

/-! ### C9: dual-mode variant
(src/examples/dual_mode_display/dual_mode_display.ino lines 31–37,
693–752) -/

/-- `enum DisplayMode` (dual_mode_display.ino:31). -/
inductive DMode where
  | uptime
  | spotify
deriving DecidableEq

/-- `currentMode = (currentMode == MODE_UPTIME) ? MODE_SPOTIFY : MODE_UPTIME`
(dual_mode_display.ino:720). -/
def toggleMode : DMode → DMode
  | .uptime => .spotify
  | .spotify => .uptime

/-- Modelled from the spec: `SWIPE_THRESHOLD` lives in the variant's
`config.h`, which is not among the sources; the repository README and the
spec's Scenario C give 80 px. -/
def SWIPE_THRESHOLD : Int := 80

/-- Modelled from the spec: `SWIPE_ZONE_HEIGHT` from the absent
`config.h`; README and spec give an 80 px top band (`y < 80`). -/
def SWIPE_ZONE_HEIGHT : Int := 80

/-- The dual-mode build's touch/UI globals
(dual_mode_display.ino:36–37 and its touch state block). -/
structure DState where
  currentMode : DMode
  modeChanged : Bool
  touchStartX : Int
  touchStartY : Int
  lastTouchX : Int
  lastTouchY : Int
  touchStartTime : Nat
  isTouching : Bool
  isDragging : Bool

/-- External calls issued by the dual-mode `handleTouch`
(`spotifyPlayPause()`, `fetchMonitors()`), emitted as actions. -/
inductive DAction where
  | none
  | playPause
  | refreshMonitors
deriving DecidableEq

/-- `handleTouch` of the dual-mode variant (dual_mode_display.ino:693):
touch start, touch move (last position + drag detection), and touch end —
first the mode-switch swipe test
(`touchStartY < SWIPE_ZONE_HEIGHT && swipeDistance > SWIPE_THRESHOLD &&
touchDuration < 1000`, which toggles the mode and returns early, leaving
`isDragging` as it was), then the per-mode tap handling. -/
def handleTouchD (s : DState) (touch : Option (Int × Int)) (now : Nat) :
    DState × DAction :=
  match touch with
  | some (tx, ty) =>
    if s.isTouching then
      ({ s with lastTouchX := tx, lastTouchY := ty,
                isDragging :=
                  if 15 < |ty - s.touchStartY| ∨ 15 < |tx - s.touchStartX| then
                    true
                  else s.isDragging }, .none)
    else
      ({ s with isTouching := true, touchStartX := tx, touchStartY := ty,
                lastTouchX := tx, lastTouchY := ty, touchStartTime := now,
                isDragging := false }, .none)
  | none =>
    if s.isTouching then
      let touchDuration := now - s.touchStartTime
      let swipeDistance := s.lastTouchY - s.touchStartY
      if s.touchStartY < SWIPE_ZONE_HEIGHT ∧ SWIPE_THRESHOLD < swipeDistance ∧
          touchDuration < 1000 then
        ({ s with currentMode := toggleMode s.currentMode, modeChanged := true,
                  isTouching := false }, .none)
      else
        let pa :=
          if touchDuration < 500 ∧ s.isDragging = false then
            match s.currentMode with
            | .spotify =>
              if 370 ≤ s.touchStartY ∧ s.touchStartY ≤ 410 ∧
                  15 + 65 ≤ s.touchStartX ∧ s.touchStartX < 15 + 115 then
                ({ s with modeChanged := true }, DAction.playPause)
              else (s, DAction.none)
            | .uptime =>
              if s.touchStartY < 80 then
                ({ s with modeChanged := true }, DAction.refreshMonitors)
              else (s, DAction.none)
          else (s, DAction.none)
        ({ pa.1 with isTouching := false, isDragging := false }, pa.2)
    else (s, .none)

/-- C9: in the dual-mode build, a touch cycle toggles the display mode
(uptime ⇄ spotify) exactly when it starts in the top swipe zone
(`touchStartY < 80`), ends with downward displacement
`lastTouchY − touchStartY > 80`, and lasts under 1000 ms; the toggle is a
genuine mode change, and touch-down/move events never change the mode. -/
theorem swipe_toggles_mode (s : DState) (now : Nat) (tx ty : Int)
    (hT : s.isTouching = true) :
    ((handleTouchD s none now).1.currentMode =
      if s.touchStartY < SWIPE_ZONE_HEIGHT ∧
          SWIPE_THRESHOLD < s.lastTouchY - s.touchStartY ∧
          now - s.touchStartTime < 1000 then
        toggleMode s.currentMode
      else s.currentMode) ∧
    toggleMode s.currentMode ≠ s.currentMode ∧
    (handleTouchD s (some (tx, ty)) now).1.currentMode = s.currentMode := by
  refine ⟨?_, ?_, ?_⟩
  · simp only [handleTouchD]
    rw [if_pos hT]
    by_cases hs : s.touchStartY < SWIPE_ZONE_HEIGHT ∧
        SWIPE_THRESHOLD < s.lastTouchY - s.touchStartY ∧
        now - s.touchStartTime < 1000
    · rw [if_pos hs, if_pos hs]
    · rw [if_neg hs, if_neg hs]
      cases hm : s.currentMode <;> split_ifs <;> first | rfl | exact hm
  · cases s.currentMode <;> simp [toggleMode]
  · simp only [handleTouchD]
    split_ifs <;> rfl

/-- Scenario C of the spec: touch-down at (90,30) inside the swipe zone,
touch-up 400 ms later with the last sample at (90,120) — displacement
90 px, in uptime mode. -/
def scenarioCState : DState :=
  { currentMode := .uptime, modeChanged := false, touchStartX := 90,
    touchStartY := 30, lastTouchX := 90, lastTouchY := 120,
    touchStartTime := 0, isTouching := true, isDragging := true }

/-- Witness for C9 at Scenario C: the swipe toggles uptime → spotify. -/
theorem swipe_toggles_mode_witness :
    scenarioCState.isTouching = true ∧
    (((handleTouchD scenarioCState none 400).1.currentMode =
      if scenarioCState.touchStartY < SWIPE_ZONE_HEIGHT ∧
          SWIPE_THRESHOLD < scenarioCState.lastTouchY - scenarioCState.touchStartY ∧
          400 - scenarioCState.touchStartTime < 1000 then
        toggleMode scenarioCState.currentMode
      else scenarioCState.currentMode) ∧
    toggleMode scenarioCState.currentMode ≠ scenarioCState.currentMode ∧
    (handleTouchD scenarioCState (some (90, 60)) 400).1.currentMode =
      scenarioCState.currentMode) :=
  ⟨by decide, swipe_toggles_mode scenarioCState 400 90 60 (by decide)⟩
